import Mathlib

/-!
Verification of the `dhekaag/golang-microservices` API gateway core.

This file gives a shallow embedding of the request-dispatch
components — credential extraction, the session-auth middleware, the
router gate helpers, the sliding-window rate limiter, the reverse-proxy
director, the middleware pipeline assembly, the panic-recovery middleware
and the session-manager resolution path — and proves properties about
them.

Modelling conventions:
* Go strings are modelled as Lean `String` values; the Go byte-indexed
  slicing (`s[:7]`, `s[7:]`, `len`) is modelled at character granularity
  via the character list `String.data` (`strTake`, `strDrop`, `strLen`).
  The two agree on ASCII data, which is the only data these slices are
  compared against (`"Bearer "`).
* An HTTP header set is modelled through its `Header.Get` view, a function
  `String → String` where the empty string means "header absent", matching
  the Go `Header.Get` convention.  `Header.Del` sets the value to `""`.
* The session store (Redis behind `SessionManager.GetSession`) is
  abstracted, at the gateway boundary, as a function
  `String → Option UserSession` giving the result of a successful
  resolution (`none` covers both a missing key and a store error).
* `time.Time` values are modelled as `Int` instants; `t.After(u)` is
  `u < t`.
-/

/-- The character-level model of Go `s[:n]` (`strings` byte slicing at
character granularity). -/
def strTake (s : String) (n : Nat) : String :=
  String.mk (s.data.take n)

/-- The character-level model of Go `s[n:]`. -/
def strDrop (s : String) (n : Nat) : String :=
  String.mk (s.data.drop n)

/-- The character-level model of Go `len(s)`. -/
def strLen (s : String) : Nat :=
  s.data.length

/-- Go `strings.HasPrefix pre s`: the first `len(pre)` characters of `s`
are `pre`.  (When `s` is shorter than `pre`, `strTake` returns all of `s`,
which can only equal `pre` if they are the same string, so this coincides
with `HasPrefix`.) -/
def goHasPre (pre s : String) : Prop :=
  strTake s (strLen pre) = pre

instance (pre s : String) : Decidable (goHasPre pre s) := by
  unfold goHasPre; infer_instance

/-- Go `strings.TrimPrefix pre s`. -/
def goTrimPre (pre s : String) : String :=
  if goHasPre pre s then strDrop s (strLen pre) else s

/-- Go `strings.Contains s pat` for a non-empty pattern, via `splitOn`:
the pattern occurs iff splitting on it produces at least two pieces. -/
def strContains (s pat : String) : Bool :=
  2 ≤ (s.splitOn pat).length

/-- An inbound HTTP request, restricted to the fields the gateway
dispatch core reads: the `session_id` cookie (`none` models
`r.Cookie` returning an error, i.e. no such cookie), the
`Authorization` and `X-Session-ID` headers (Go `Header.Get` view,
`""` = absent), and the method and URL path. -/
structure HttpRequest where
  cookieSessionId : Option String
  authHeader : String
  xSessionID : String
  method : String
  path : String
deriving DecidableEq

/-- A session record, from `shared/pkg/session.UserSession`. -/
structure UserSession where
  userID : Nat
  name : String
  email : String
  role : String
  lastSeen : Int
  ipAddress : String
  userAgent : String
deriving DecidableEq

/-- The gateway view of the session store: the outcome of
`SessionManager.GetSession` per session ID (`none` = miss or error). -/
def SessionStore : Type :=
  String → Option UserSession

/-- `gateway.extractSessionIDFromRequest` (middleware/gateway/auth.go):
cookie `session_id` if present and non-empty, else the `Authorization`
header when it is longer than 7 and starts with `"Bearer "` (the part
after the prefix), else the `X-Session-ID` header. -/
def extractSessionIDFromRequest (r : HttpRequest) : String :=
  match r.cookieSessionId with
  | some v =>
      if v ≠ "" then v
      else
        if r.authHeader ≠ "" ∧ 7 < strLen r.authHeader ∧ strTake r.authHeader 7 = "Bearer "
        then strDrop r.authHeader 7
        else r.xSessionID
  | none =>
      if r.authHeader ≠ "" ∧ 7 < strLen r.authHeader ∧ strTake r.authHeader 7 = "Bearer "
      then strDrop r.authHeader 7
      else r.xSessionID

/-- `AuthHandler.extractSessionID` (handler/auth_handler.go); its Go body
is character-for-character the same as `extractSessionIDFromRequest`. -/
def authExtractSessionID (r : HttpRequest) : String :=
  match r.cookieSessionId with
  | some v =>
      if v ≠ "" then v
      else
        if r.authHeader ≠ "" ∧ 7 < strLen r.authHeader ∧ strTake r.authHeader 7 = "Bearer "
        then strDrop r.authHeader 7
        else r.xSessionID
  | none =>
      if r.authHeader ≠ "" ∧ 7 < strLen r.authHeader ∧ strTake r.authHeader 7 = "Bearer "
      then strDrop r.authHeader 7
      else r.xSessionID

/-- `Router.extractSessionID` (router/router.go): cookie first, else the
`Authorization` header via `strings.HasPrefix "Bearer "` and
`strings.TrimPrefix`, else the `X-Session-ID` header. -/
def routerExtractSessionID (r : HttpRequest) : String :=
  match r.cookieSessionId with
  | some v =>
      if v ≠ "" then v
      else
        if r.authHeader ≠ "" ∧ goHasPre "Bearer " r.authHeader
        then goTrimPre "Bearer " r.authHeader
        else r.xSessionID
  | none =>
      if r.authHeader ≠ "" ∧ goHasPre "Bearer " r.authHeader
      then goTrimPre "Bearer " r.authHeader
      else r.xSessionID

/-- `AuthHandler.ValidateSession`: an empty session ID is rejected
without touching the store; otherwise the store lookup decides. -/
def validateSession (store : SessionStore) (sessionID : String) : Option UserSession :=
  if sessionID = "" then none else store sessionID

/-- `AuthHandler.IsAdmin`: resolve the session, then compare its role to
the literal `"admin"`. -/
def IsAdmin (store : SessionStore) (sessionID : String) : Bool :=
  match validateSession store sessionID with
  | none => false
  | some s => s.role == "admin"

/-- The skip list of `SessionAuthMiddleware`. -/
def skipPaths : List String :=
  ["/health", "/api/v1/auth/login", "/api/v1/auth/register",
   "/api/v1/users", "/docs", "/api/v1/webhooks"]

/-- The skip condition of `SessionAuthMiddleware`: some skip path is a
prefix of the request path, and the method is POST or the skip path
mentions health, docs or webhooks. -/
def skipAuthPath (path method : String) : Bool :=
  skipPaths.any (fun p =>
    decide (goHasPre p path) &&
      (method == "POST" || strContains p "health" || strContains p "docs"
        || strContains p "webhooks"))

/-- Outcome of one middleware layer: a response written by the layer
itself (the inner handler is never invoked), or a pass-through to the
inner handler, carrying the session the layer attached to the request
context (if any). -/
inductive MwOutcome where
  | response (status : Nat) (msg : String)
  | next (s : Option UserSession)
deriving DecidableEq

/-- `gateway.SessionAuthMiddleware`: skip-listed paths pass through;
otherwise extract a session ID (empty → 401 "Missing session" with no
store lookup), validate it (failure → 401 "Invalid session"), and pass
the session on success. -/
def sessionAuthMiddleware (store : SessionStore) (r : HttpRequest) : MwOutcome :=
  if skipAuthPath r.path r.method then .next none
  else
    let sessionID := extractSessionIDFromRequest r
    if sessionID = "" then .response 401 "Missing session"
    else
      match validateSession store sessionID with
      | none => .response 401 "Invalid session"
      | some s => .next (some s)

/-- `Router.isProtectedRoute`: some listed route is a prefix of the path. -/
def isProtectedRoute (path : String) (protectedRoutes : List String) : Bool :=
  protectedRoutes.any (fun route => decide (goHasPre route path))

/-- `Router.isAuthenticated`: extract with the router extractor, reject
the empty ID, then validate. -/
def routerIsAuthenticated (store : SessionStore) (r : HttpRequest) : Bool :=
  let sessionID := routerExtractSessionID r
  if sessionID = "" then false else (validateSession store sessionID).isSome

/-- `Router.isAdmin`: extract with the router extractor, reject the
empty ID, then `AuthHandler.IsAdmin`. -/
def routerIsAdmin (store : SessionStore) (r : HttpRequest) : Bool :=
  let sessionID := routerExtractSessionID r
  if sessionID = "" then false else IsAdmin store sessionID

/-- Result of a route handler: an error envelope written by the gateway
itself, or a relay of the (rewritten) request to a named upstream
service through the service proxy. -/
inductive RouteResult where
  | err (status : Nat) (msg : String)
  | forward (service : String) (path : String)
deriving DecidableEq

/-- The admin-only order sub-routes of `handleOrderRoutes`. -/
def orderAdminRoutes : List String :=
  ["/api/v1/orders/admin", "/api/v1/orders/analytics", "/api/v1/orders/export"]

/-- `Router.handleOrderRoutes`: every order route requires
authentication; the listed admin sub-routes additionally require the
admin check; then the `/api/v1` prefix is stripped and the request is
forwarded to the order service. -/
def handleOrderRoutes (store : SessionStore) (r : HttpRequest) : RouteResult :=
  if routerIsAuthenticated store r = false then .err 401 "Authentication required"
  else if isProtectedRoute r.path orderAdminRoutes = true ∧ routerIsAdmin store r = false
    then .err 403 "Admin access required"
  else .forward "order" (goTrimPre "/api/v1" r.path)

/-- `Router.handleAdminRoutes`: authentication, then the admin check,
then prefix-based dispatch to the user/product/order services. -/
def handleAdminRoutes (store : SessionStore) (r : HttpRequest) : RouteResult :=
  if routerIsAuthenticated store r = false then .err 401 "Authentication required"
  else if routerIsAdmin store r = false then .err 403 "Admin access required"
  else if goHasPre "/api/v1/admin/users" r.path
    then .forward "user" (goTrimPre "/api/v1/admin" r.path)
  else if goHasPre "/api/v1/admin/products" r.path
    then .forward "product" (goTrimPre "/api/v1/admin" r.path)
  else if goHasPre "/api/v1/admin/orders" r.path
    then .forward "order" (goTrimPre "/api/v1/admin" r.path)
  else .err 404 "Admin endpoint not found"

/-- The role enum of the user service (`domain.EnumRole`): users are
created and logged in with one of these two values. -/
def domainUSER : String := "USER"

/-- The admin value of `domain.EnumRole`. -/
def domainADMIN : String := "ADMIN"

/-- A header set through its `Header.Get` view (`""` = absent). -/
def Headers : Type :=
  String → String

/-- Go `Header.Set`. -/
def hSet (h : Headers) (k v : String) : Headers :=
  fun k2 => if k2 = k then v else h k2

/-- Go `Header.Del` on the `Get` view: the key now reads as absent. -/
def hDel (h : Headers) (k : String) : Headers :=
  hSet h k ""

/-- The custom `Director` installed by `createReverseProxy`
(proxy/service_proxy.go), acting on the outbound request headers after
the standard single-host director (which rewrites only the URL): re-stamp
the tracing headers when present, set the service-identification headers,
then delete `Cookie` and `Authorization`. -/
def director (serviceName : String) (h : Headers) : Headers :=
  let h1 := if h "X-Request-ID" ≠ "" then hSet h "X-Request-ID" (h "X-Request-ID") else h
  let h2 := if h1 "X-Correlation-ID" ≠ "" then hSet h1 "X-Correlation-ID" (h1 "X-Correlation-ID") else h1
  let h3 := if h2 "X-User-ID" ≠ "" then hSet h2 "X-User-ID" (h2 "X-User-ID") else h2
  let h4 := hSet h3 "X-Forwarded-By" "api-gateway"
  let h5 := hSet h4 "X-Target-Service" serviceName
  let h6 := hSet h5 "User-Agent" "API-Gateway/1.0"
  let h7 := hDel h6 "Cookie"
  hDel h7 "Authorization"

/-- The middleware layers wrapped by `Router.applyMiddlewares`, plus the
final dispatcher. -/
inductive MwTag where
  | recovery
  | logging
  | cors
  | sessionAuth
  | requestID
  | securityHeaders
  | timeoutMw
  | dispatch
deriving DecidableEq

/-- A handler instrumented to record, in order, the layers a request
enters: it appends its own tag to the trace, then runs the inner
handler. -/
def MwHandler : Type :=
  List MwTag → List MwTag

/-- Wrapping a handler in one middleware layer. -/
def wrapMw (t : MwTag) (next : MwHandler) : MwHandler :=
  fun trace => next (trace ++ [t])

/-- `Router.applyMiddlewares` (router/router.go): the exact sequence of
wrappings applied to the mux — `Timeout` first (innermost), then
`SecurityHeaders`, the request/correlation-ID chain, `SessionAuthMiddleware`,
`CORS`, `Logging`, and `Recovery` last (outermost).  The rate-limiting
wrapping is commented out in the source and therefore absent. -/
def applyMiddlewares (base : MwHandler) : MwHandler :=
  let h := wrapMw .timeoutMw base
  let h := wrapMw .securityHeaders h
  let h := wrapMw .requestID h
  let h := wrapMw .sessionAuth h
  let h := wrapMw .cors h
  let h := wrapMw .logging h
  let h := wrapMw .recovery h
  h

/-- The order in which a request entering the assembled pipeline crosses
the layers, outermost first. -/
def middlewareEntryOrder : List MwTag :=
  applyMiddlewares (fun trace => trace ++ [.dispatch]) []

/-- An application error (`shared/pkg/errors.AppError`), restricted to
the fields the envelope serialises. -/
structure AppError where
  code : String
  message : String
  statusCode : Nat
deriving DecidableEq

/-- `errors.CodeInternalServer`. -/
def CodeInternalServer : String := "INTERNAL_SERVER_ERROR"

/-- `errors.NewInternalServerError`. -/
def NewInternalServerError (message : String) : AppError :=
  { code := CodeInternalServer, message := message, statusCode := 500 }

/-- The client-facing envelope body (`errors.APIResponse`), restricted
to the fields an error response carries. -/
structure APIResponse where
  status : String
  message : String
  error : String
deriving DecidableEq

/-- `errors.StatusError`. -/
def StatusError : String := "error"

/-- `errors.WriteErrorResponse`: the HTTP status written and the
serialised envelope. -/
def WriteErrorResponse (e : AppError) : Nat × APIResponse :=
  (e.statusCode, { status := StatusError, message := e.message, error := e.code })

/-- What running the layers beneath `Recovery` on a request does: either
complete normally with a written status and body, or raise an uncaught
Go panic carrying a message. -/
inductive HandlerResult where
  | ok (status : Nat) (resBody : APIResponse)
  | panicked (msg : String)
deriving DecidableEq

/-- `middleware.Recovery` (shared/pkg/middleware): run the inner handler
under a deferred `recover`; a normal completion passes through, a panic
is converted into `WriteErrorResponse(NewInternalServerError("Internal
server error"))`.  The result type being total records that the fault
never propagates past this layer. -/
def Recovery (next : HttpRequest → HandlerResult) (r : HttpRequest) : Nat × APIResponse :=
  match next r with
  | .ok status resBody => (status, resBody)
  | .panicked _ => WriteErrorResponse (NewInternalServerError "Internal server error")

/-- Per-client state of the gateway rate limiter
(middleware/gateway/rate_limit): the recorded request instants per
client ID, `none` before the first request of the client. -/
def RLState : Type :=
  String → Option (List Int)

/-- The pruning loop of `RateLimiter.Allow`: keep the timestamps strictly
after `now - window` (Go `req.After(cutoff)`). -/
def pruneRequests (window now : Int) (reqs : List Int) : List Int :=
  reqs.filter (fun t => decide (now - window < t))

/-- `RateLimiter.Allow`: look up (or lazily create) the list of the client,
prune entries outside the window, refuse if the pruned count has reached
the limit, otherwise record `now` and admit.  The pruned list is
persisted in both cases. -/
def rateLimiterAllow (limit window : Int) (st : RLState) (clientID : String) (now : Int) :
    Bool × RLState :=
  let reqs := (st clientID).getD []
  let pruned := pruneRequests window now reqs
  if limit ≤ (pruned.length : Int) then
    (false, fun c => if c = clientID then some pruned else st c)
  else
    (true, fun c => if c = clientID then some (pruned ++ [now]) else st c)

/-- `SessionManager.GetSession` (shared/pkg/session/session.go): a store
miss fails with "session not found"; on a hit, `LastSeen` is rewritten to
the current instant and the record is written back (`UpdateSession`,
the TTL-resetting touch); a failing write-back fails the whole
resolution.  `stored` is the Redis read result for the key and
`touchSucceeds` whether the write-back succeeds. -/
inductive SessionResult where
  | ok (s : UserSession)
  | error (msg : String)
deriving DecidableEq

/-- The resolution path of `SessionManager.GetSession`. -/
def GetSession (stored : Option UserSession) (touchSucceeds : Bool) (now : Int) :
    SessionResult :=
  match stored with
  | none => .error "session not found"
  | some s =>
      let touched : UserSession := { s with lastSeen := now }
      if touchSucceeds then .ok touched
      else .error "failed to update last seen time"

/-- Claim C7 (counterexample): in the assembled pipeline, the second
layer a request enters is the logging middleware, not timeout
enforcement, so the claimed wrap order (panic containment, then timeout
second) is false on the code. -/
theorem applyMiddlewares_timeout_not_second :
    middlewareEntryOrder.get? 1 = some MwTag.logging ∧
      middlewareEntryOrder.get? 1 ≠ some MwTag.timeoutMw := by
  constructor
  · rfl
  · decide

/-- Claim C7 (amended): the pipeline wraps the dispatcher in this fixed
order, outermost first: panic containment (Recovery), then logging, then
CORS, then session-auth dispatch, then correlation/request-ID
assignment, then security headers, then timeout enforcement as the
innermost wrapper before dispatch; rate limiting is absent (commented
out). -/
theorem applyMiddlewares_entry_order :
    middlewareEntryOrder =
      [MwTag.recovery, MwTag.logging, MwTag.cors, MwTag.sessionAuth,
       MwTag.requestID, MwTag.securityHeaders, MwTag.timeoutMw, MwTag.dispatch] := by
  rfl

/-- Claim C5: for every relayed request, the outbound header set
produced by the proxy director contains neither `Cookie` nor
`Authorization` (they read as absent), regardless of the inbound
headers, and carries `X-Forwarded-By: api-gateway` and
`X-Target-Service: <service>`. -/
theorem director_strips_credentials (serviceName : String) (h : Headers) :
    director serviceName h "Cookie" = "" ∧
      director serviceName h "Authorization" = "" ∧
      director serviceName h "X-Forwarded-By" = "api-gateway" ∧
      director serviceName h "X-Target-Service" = serviceName := by
  exact ⟨rfl, rfl, rfl, rfl⟩

/-- Characters of `"Bearer "`. -/
theorem strLen_bearer : strLen "Bearer " = 7 := rfl

/-- `strTake` returns the whole string when it is no longer than the cut. -/
theorem strTake_of_le (a : String) (n : Nat) (h : strLen a ≤ n) : strTake a n = a := by
  unfold strLen at h
  unfold strTake
  rw [List.take_of_length_le h]

/-- The router `HasPrefix "Bearer "` test in terms of the 7-character cut
used by the other two extractors. -/
theorem goHasPre_bearer_iff (a : String) : goHasPre "Bearer " a ↔ strTake a 7 = "Bearer " := by
  unfold goHasPre
  rw [strLen_bearer]

/-- The `session_id` cookie carries no usable credential: it is absent or
empty. -/
def cookieCredAbsent (r : HttpRequest) : Bool :=
  match r.cookieSessionId with
  | none => true
  | some v => v == ""

/-- A request with no usable cookie, an `Authorization` header that is
exactly `"Bearer "` (empty token), and a non-empty `X-Session-ID`
header. -/
def reqEmptyBearer : HttpRequest := ⟨none, "Bearer ", "abc", "GET", "/x"⟩

/-- Claim C10 (counterexample): the three extraction functions are not
equivalent — on a request whose `Authorization` header is exactly
`"Bearer "` with the cookie absent and `X-Session-ID` set to `"abc"`,
the router extractor returns `""` while the middleware one returns
`"abc"`. -/
theorem extractors_disagree_on_empty_bearer :
    routerExtractSessionID reqEmptyBearer ≠ extractSessionIDFromRequest reqEmptyBearer := by
  decide

/-- Claim C10 (amended): the middleware and auth-handler
extractors are the same function of the request; the router extractor
agrees with them on every request except those whose cookie credential
is absent or empty and whose `Authorization` header is exactly
`"Bearer "` (an empty bearer token), where the router returns `""`
instead of falling through to the `X-Session-ID` header. -/
theorem extractors_agree_except_empty_bearer (r : HttpRequest) :
    authExtractSessionID r = extractSessionIDFromRequest r ∧
    routerExtractSessionID r =
      (if cookieCredAbsent r = true ∧ r.authHeader = "Bearer "
       then "" else extractSessionIDFromRequest r) := by
  obtain ⟨c, a, x, m, p⟩ := r
  refine ⟨rfl, ?_⟩
  have key : (if a ≠ "" ∧ goHasPre "Bearer " a then goTrimPre "Bearer " a else x) =
      (if a = "Bearer " then ""
       else if a ≠ "" ∧ 7 < strLen a ∧ strTake a 7 = "Bearer " then strDrop a 7 else x) := by
    by_cases hpre : strTake a 7 = "Bearer "
    · have hane : a ≠ "" := by
        intro h0; subst h0; revert hpre; decide
      by_cases hlen : 7 < strLen a
      · have hne : a ≠ "Bearer " := by
          intro h0; subst h0; revert hlen; decide
        rw [if_pos ⟨hane, (goHasPre_bearer_iff a).mpr hpre⟩, if_neg hne,
            if_pos ⟨hane, hlen, hpre⟩]
        unfold goTrimPre
        rw [if_pos ((goHasPre_bearer_iff a).mpr hpre), strLen_bearer]
      · have heq : a = "Bearer " := by
          have hle : strLen a ≤ 7 := Nat.le_of_not_lt hlen
          have ht := strTake_of_le a 7 hle
          rw [ht] at hpre
          exact hpre
        subst heq
        have htrim : goTrimPre "Bearer " "Bearer " = "" := by decide
        rw [if_pos ⟨hane, (goHasPre_bearer_iff _).mpr hpre⟩, htrim, if_pos rfl]
    · have hne : a ≠ "Bearer " := by
        intro h0; subst h0; exact hpre (by decide)
      rw [if_neg (fun hand => hpre ((goHasPre_bearer_iff a).mp hand.2)),
          if_neg hne, if_neg (fun hand => hpre hand.2.2)]
  cases c with
  | none =>
      simpa [routerExtractSessionID, extractSessionIDFromRequest, cookieCredAbsent] using key
  | some v =>
      by_cases hv : v = ""
      · subst hv
        simpa [routerExtractSessionID, extractSessionIDFromRequest, cookieCredAbsent] using key
      · simp [routerExtractSessionID, extractSessionIDFromRequest, cookieCredAbsent, hv]

/-- Claim C3: credential extraction probes sources in this precedence —
the `session_id` cookie when present and non-empty; else the
`Authorization` header when it carries a `Bearer ` prefix followed by a
non-empty token (the token is used); else the `X-Session-ID` header —
and when all three are absent the auth gate answers 401 "Missing
session" for every possible store state, i.e. without attempting a
session lookup. -/
theorem extraction_precedence (r : HttpRequest) :
    (∀ v, r.cookieSessionId = some v → v ≠ "" → extractSessionIDFromRequest r = v) ∧
    (cookieCredAbsent r = true →
      (r.authHeader ≠ "" ∧ 7 < strLen r.authHeader ∧ strTake r.authHeader 7 = "Bearer " →
        extractSessionIDFromRequest r = strDrop r.authHeader 7) ∧
      (¬ (r.authHeader ≠ "" ∧ 7 < strLen r.authHeader ∧ strTake r.authHeader 7 = "Bearer ") →
        extractSessionIDFromRequest r = r.xSessionID)) ∧
    (r.cookieSessionId = none → r.authHeader = "" → r.xSessionID = "" →
      extractSessionIDFromRequest r = "" ∧
      ∀ store : SessionStore, skipAuthPath r.path r.method = false →
        sessionAuthMiddleware store r = .response 401 "Missing session") := by
  obtain ⟨c, a, x, m, p⟩ := r
  refine ⟨?_, ?_, ?_⟩
  · intro v hv hne
    cases hv
    simp [extractSessionIDFromRequest, hne]
  · intro habs
    constructor
    · intro hb
      cases c with
      | none => simp [extractSessionIDFromRequest, hb]
      | some v =>
          have hv : v = "" := by simpa [cookieCredAbsent] using habs
          subst hv
          simp [extractSessionIDFromRequest, hb]
    · intro hnb
      cases c with
      | none => simp [extractSessionIDFromRequest, hnb]
      | some v =>
          have hv : v = "" := by simpa [cookieCredAbsent] using habs
          subst hv
          simp [extractSessionIDFromRequest, hnb]
  · intro hc ha hx
    cases hc
    subst ha
    subst hx
    have hext : extractSessionIDFromRequest ⟨none, "", "", m, p⟩ = "" := rfl
    refine ⟨hext, ?_⟩
    intro store hskip
    unfold sessionAuthMiddleware
    simp [hskip, hext]

/-- An empty session store: every lookup misses. -/
def noSessionStore : SessionStore := fun _ => none

/-- An order-route request carrying no credential in any of the three
sources. -/
def reqNoCred : HttpRequest := ⟨none, "", "", "GET", "/api/v1/orders"⟩

/-- A request presenting the session ID in the cookie. -/
def reqCookieCred : HttpRequest := ⟨some "c1", "Bearer tok123", "xhdr", "GET", "/api/v1/orders"⟩

/-- A request presenting the session ID as a bearer token only. -/
def reqBearerCred : HttpRequest := ⟨none, "Bearer tok123", "xhdr", "GET", "/api/v1/orders"⟩

/-- A request presenting the session ID in `X-Session-ID` only. -/
def reqHeaderCred : HttpRequest := ⟨none, "", "xhdr", "GET", "/api/v1/orders"⟩

/-- Witness for claim C3 at concrete requests: the cookie wins over both
headers; the bearer token wins over `X-Session-ID`; `X-Session-ID` is
the final fallback; and with no credential at all the gate answers 401
"Missing session". -/
theorem extraction_precedence_witness :
    extractSessionIDFromRequest reqCookieCred = "c1" ∧
    extractSessionIDFromRequest reqBearerCred = "tok123" ∧
    extractSessionIDFromRequest reqHeaderCred = "xhdr" ∧
    extractSessionIDFromRequest reqNoCred = "" ∧
    sessionAuthMiddleware noSessionStore reqNoCred = .response 401 "Missing session" := by
  have h1 := (extraction_precedence reqCookieCred).1 "c1" rfl (by decide)
  have h2 := ((extraction_precedence reqBearerCred).2.1 (by decide)).1 (by decide)
  have h3 := ((extraction_precedence reqHeaderCred).2.1 (by decide)).2 (by decide)
  have h4 := (extraction_precedence reqNoCred).2.2 rfl rfl rfl
  refine ⟨h1, ?_, h3, h4.1, h4.2 noSessionStore (by decide)⟩
  rw [h2]
  decide

/-- Claim C1: on a gated route, a request with no valid credential — the
extracted session ID is empty or does not resolve in the store — is
answered with a 401 Unauthorized error by the order-route handler and is
never forwarded to the upstream service; likewise the session-auth
middleware (on non-skip-listed paths) answers 401 without passing the
request to the inner handler chain that contains the forwarder. -/
theorem auth_route_blocks_upstream (store : SessionStore) (r : HttpRequest)
    (hmw : validateSession store (extractSessionIDFromRequest r) = none)
    (hrt : validateSession store (routerExtractSessionID r) = none) :
    handleOrderRoutes store r = .err 401 "Authentication required" ∧
      (∀ svc targetPath, handleOrderRoutes store r ≠ .forward svc targetPath) ∧
      (skipAuthPath r.path r.method = false →
        (sessionAuthMiddleware store r = .response 401 "Missing session" ∨
          sessionAuthMiddleware store r = .response 401 "Invalid session") ∧
        ∀ s, sessionAuthMiddleware store r ≠ .next s) := by
  have hauth : routerIsAuthenticated store r = false := by
    unfold routerIsAuthenticated
    by_cases hs : routerExtractSessionID r = ""
    · simp [hs]
    · simp [hs, hrt]
  have h1 : handleOrderRoutes store r = .err 401 "Authentication required" := by
    unfold handleOrderRoutes
    simp [hauth]
  refine ⟨h1, ?_, ?_⟩
  · intro svc targetPath
    rw [h1]
    simp
  · intro hskip
    have hdisj : sessionAuthMiddleware store r = .response 401 "Missing session" ∨
        sessionAuthMiddleware store r = .response 401 "Invalid session" := by
      unfold sessionAuthMiddleware
      simp only [hskip, Bool.false_eq_true, if_false]
      by_cases hs : extractSessionIDFromRequest r = ""
      · left; simp [hs]
      · right; simp [hs, hmw]
    refine ⟨hdisj, ?_⟩
    intro s hnext
    rcases hdisj with h | h <;> rw [h] at hnext <;> cases hnext

/-- Witness for claim C1: with an empty store and an uncredentialed
request to `/api/v1/orders`, the handler answers 401 and the middleware
does not pass the request through. -/
theorem auth_route_blocks_upstream_witness :
    validateSession noSessionStore (extractSessionIDFromRequest reqNoCred) = none ∧
    validateSession noSessionStore (routerExtractSessionID reqNoCred) = none ∧
    skipAuthPath reqNoCred.path reqNoCred.method = false ∧
    handleOrderRoutes noSessionStore reqNoCred = .err 401 "Authentication required" ∧
    ∀ s, sessionAuthMiddleware noSessionStore reqNoCred ≠ .next s := by
  have h := auth_route_blocks_upstream noSessionStore reqNoCred rfl rfl
  exact ⟨rfl, rfl, by decide, h.1, (h.2.2 (by decide)).2⟩

/-- The admission decision of `RateLimiter.Allow` is a function of the
own entry of the calling client alone. -/
theorem rateLimiterAllow_fst_congr (limit window now : Int) (s1 s2 : RLState) (cid : String)
    (h : s1 cid = s2 cid) :
    (rateLimiterAllow limit window s1 cid now).1 = (rateLimiterAllow limit window s2 cid now).1 := by
  unfold rateLimiterAllow
  rw [h]
  by_cases hc : limit ≤ ((pruneRequests window now ((s2 cid).getD [])).length : Int)
  · simp [hc]
  · simp [hc]

/-- Claim C2: in every `RateLimiter.Allow` call, entries at or before
`now - window` are gone from the pruned list the admission check sees;
the call admits iff the pruned count is strictly below the limit; the
current instant is appended exactly when the call admits; and
afterwards the stored list of the client holds only instants inside the
trailing window and its length never exceeds the limit (given it did
not before the call). -/
theorem rateLimiterAllow_invariant (limit window now : Int) (st : RLState) (cid : String)
    (hlen : (((st cid).getD []).length : Int) ≤ limit) (hw : 0 < window) :
    (∀ t ∈ (st cid).getD [], t ≤ now - window →
        t ∉ pruneRequests window now ((st cid).getD [])) ∧
    ((rateLimiterAllow limit window st cid now).1 = true ↔
        ((pruneRequests window now ((st cid).getD [])).length : Int) < limit) ∧
    ((rateLimiterAllow limit window st cid now).2 cid =
        some (if (rateLimiterAllow limit window st cid now).1 = true
          then pruneRequests window now ((st cid).getD []) ++ [now]
          else pruneRequests window now ((st cid).getD []))) ∧
    (∀ t ∈ ((rateLimiterAllow limit window st cid now).2 cid).getD [],
        now - window < t) ∧
    ((((rateLimiterAllow limit window st cid now).2 cid).getD []).length : Int) ≤ limit := by
  have hfilterle : ((pruneRequests window now ((st cid).getD [])).length : Int) ≤
      (((st cid).getD []).length : Int) := by
    exact_mod_cast List.length_filter_le _ _
  have hmem : ∀ t, t ∈ pruneRequests window now ((st cid).getD []) → now - window < t := by
    intro t ht
    have := List.of_mem_filter ht
    simpa using this
  by_cases hc : limit ≤ ((pruneRequests window now ((st cid).getD [])).length : Int)
  · refine ⟨?_, ?_, ?_, ?_, ?_⟩
    · intro t _ hstale hmem2
      exact absurd (hmem t hmem2) (by omega)
    · simp [rateLimiterAllow, hc]
      try omega
    · simp [rateLimiterAllow, hc]
    · simp [rateLimiterAllow, hc]
      intro t ht
      exact hmem t ht
    · simp [rateLimiterAllow, hc]
      try omega
  · refine ⟨?_, ?_, ?_, ?_, ?_⟩
    · intro t _ hstale hmem2
      exact absurd (hmem t hmem2) (by omega)
    · simp [rateLimiterAllow, hc]
      try omega
    · simp [rateLimiterAllow, hc]
    · simp [rateLimiterAllow, hc]
      intro t ht
      rcases ht with h1 | h1
      · exact hmem t h1
      · omega
    · simp [rateLimiterAllow, hc]
      try omega

/-- A rate-limiter state with recorded requests for client `"a"` only. -/
def rlStore1 : RLState := fun c => if c = "a" then some [30, 95] else none

/-- Witness for claim C2 at limit 3, window 60, instant 100, with prior
requests at 30 (stale) and 95. -/
theorem rateLimiterAllow_invariant_witness :
    ((((rlStore1 "a").getD []).length : Int) ≤ 3 ∧ (0 : Int) < 60) ∧
    ((rateLimiterAllow 3 60 rlStore1 "a" 100).1 = true ↔
      ((pruneRequests 60 100 ((rlStore1 "a").getD [])).length : Int) < 3) ∧
    ((rateLimiterAllow 3 60 rlStore1 "a" 100).2 "a" =
      some (if (rateLimiterAllow 3 60 rlStore1 "a" 100).1 = true
        then pruneRequests 60 100 ((rlStore1 "a").getD []) ++ [100]
        else pruneRequests 60 100 ((rlStore1 "a").getD []))) ∧
    ((((rateLimiterAllow 3 60 rlStore1 "a" 100).2 "a").getD []).length : Int) ≤ 3 := by
  have h := rateLimiterAllow_invariant 3 60 100 rlStore1 "a" (by decide) (by decide)
  exact ⟨⟨by decide, by decide⟩, h.2.1, h.2.2.1, h.2.2.2.2⟩

/-- Claim C8: an `Allow` call for client `a` leaves the stored
state of client `b` untouched, and the next admission decision of `b` is the same whether
or not the call for `a` happened. -/
theorem rateLimiterAllow_frame (limit window now : Int) (st : RLState) (a b : String)
    (h : a ≠ b) :
    (rateLimiterAllow limit window st a now).2 b = st b ∧
    (rateLimiterAllow limit window ((rateLimiterAllow limit window st a now).2) b now).1
      = (rateLimiterAllow limit window st b now).1 := by
  have hb : ¬ b = a := fun hba => h hba.symm
  have h1 : (rateLimiterAllow limit window st a now).2 b = st b := by
    unfold rateLimiterAllow
    by_cases hc : limit ≤ ((pruneRequests window now ((st a).getD [])).length : Int)
    · simp [hc, hb]
    · simp [hc, hb]
  exact ⟨h1, rateLimiterAllow_fst_congr limit window now _ _ b h1⟩

/-- Witness for claim C8 with clients `"a"` and `"b"`. -/
theorem rateLimiterAllow_frame_witness :
    ("a" : String) ≠ "b" ∧
    (rateLimiterAllow 3 60 rlStore1 "a" 100).2 "b" = rlStore1 "b" ∧
    (rateLimiterAllow 3 60 ((rateLimiterAllow 3 60 rlStore1 "a" 100).2) "b" 100).1
      = (rateLimiterAllow 3 60 rlStore1 "b" 100).1 := by
  have h := rateLimiterAllow_frame 3 60 100 rlStore1 "a" "b" (by decide)
  exact ⟨by decide, h.1, h.2⟩

/-- A session whose role is the admin enum value of the user service. -/
def adminSession : UserSession := ⟨7, "Alice", "alice", domainADMIN, 0, "127.0.0.1", "ua"⟩

/-- A store holding `adminSession` under `"sid-admin"`. -/
def adminStore : SessionStore := fun sid => if sid = "sid-admin" then some adminSession else none

/-- An admin-route request presenting `"sid-admin"` via `X-Session-ID`. -/
def reqAdminUsers : HttpRequest := ⟨none, "", "sid-admin", "GET", "/api/v1/admin/users"⟩

/-- Claim C6 (evaluation at the failing input): a valid session whose
role is the admin enum value `"ADMIN"` of the user service passes the
authenticated check, yet `IsAdmin` — which compares against the
lowercase literal `"admin"` — rejects it, so the admin-gated route
answers 403 instead of forwarding. -/
theorem admin_role_case_mismatch :
    adminSession.role = domainADMIN ∧
    validateSession adminStore "sid-admin" = some adminSession ∧
    routerIsAuthenticated adminStore reqAdminUsers = true ∧
    IsAdmin adminStore "sid-admin" = false ∧
    handleAdminRoutes adminStore reqAdminUsers = .err 403 "Admin access required" := by
  refine ⟨rfl, ?_, ?_, ?_, ?_⟩ <;> decide

/-- A session record as found in the store before a resolution. -/
def foundSession : UserSession := ⟨3, "Bob", "bob", domainUSER, 10, "10.0.0.1", "ua"⟩

/-- Claim C4 (evaluation at the failing input): when the session is
found but the touch write-back fails, `GetSession` returns the
touch-failure error — resolution fails and the found session is not
returned, for any session value. -/
theorem touch_failure_fails_resolution :
    GetSession (some foundSession) false 99 = .error "failed to update last seen time" ∧
    ∀ s, GetSession (some foundSession) false 99 ≠ .ok s := by
  refine ⟨rfl, ?_⟩
  intro s h
  exact SessionResult.noConfusion h

/-- Claim C9: whenever the layers under `Recovery` end in a panic, the
request is answered with the structured envelope
`(status "error", code INTERNAL_SERVER_ERROR)` under HTTP status 500;
`Recovery` being a total function into responses, the fault never
propagates past it. -/
theorem recovery_converts_panic (next : HttpRequest → HandlerResult) (r : HttpRequest)
    (msg : String) (h : next r = .panicked msg) :
    Recovery next r = (500, ⟨StatusError, "Internal server error", CodeInternalServer⟩) ∧
    (Recovery next r).1 = 500 ∧
    (Recovery next r).2.status = "error" := by
  unfold Recovery
  rw [h]
  exact ⟨rfl, rfl, rfl⟩

/-- A pipeline whose inner layers always panic. -/
def panickingHandler : HttpRequest → HandlerResult := fun _ => .panicked "boom"

/-- Witness for claim C9: the always-panicking pipeline yields the
structured 500 envelope. -/
theorem recovery_converts_panic_witness :
    panickingHandler reqNoCred = HandlerResult.panicked "boom" ∧
    Recovery panickingHandler reqNoCred =
      (500, ⟨StatusError, "Internal server error", CodeInternalServer⟩) := by
  have h := recovery_converts_panic panickingHandler reqNoCred "boom" rfl
  exact ⟨rfl, h.1⟩
